import Mathlib

/-!
Verification development for the email tooling of the Watsonx_project repository
(`python_tools/Email_tools/email_tools.py`).

The Python module is shallowly embedded as follows.

* Environment variables (`os.getenv`) are a record `Env` of `Option String`
  fields; the two `custom`-provider ports are stored with Python's
  `int(os.getenv(..., default))` already applied, since no claim concerns a
  malformed port string.
* Python truthiness of an optional string (`if cc_email:`,
  `bool(a and b)`, `x or default`) is modelled by `pyTruthy` / `pyOr`.
* Network I/O is modelled by an explicit event trace (`Ev`) together with a
  "world" record (`SmtpWorld`, `ImapWorld`) that decides, for each network
  primitive the code performs, whether that primitive raises a Python
  exception (`PyExn`) and what data it returns.  An exception raised by a
  primitive aborts the straight-line code exactly where Python would and is
  routed to the embedding of the function's `except` clauses.  Events already
  emitted before the exception stay in the trace, matching the fact that a
  raised exception does not undo I/O that already happened.
* `bytes.decode('utf-8', errors='ignore')` is embedded as a UTF-8 decoder
  `utf8DecodeWith` parameterised by what the error handler inserts for each
  maximal invalid subpart: `[]` for `ignore`, `[U+FFFD]` for `replace`.
* Strings are Lean `String`s; a decoded message body is kept as `List Char`
  so that Python's `len`/slicing on `str` (code points) is exact.
-/

/-- A Python exception value, tagged with the class the `except` clauses of
`email_tools.py` distinguish, carrying `str(e)`. -/
inductive PyExn where
  | smtpAuthError (msg : String)
  | smtpError (msg : String)
  | imapError (msg : String)
  | otherError (msg : String)
deriving DecidableEq

/-- Python `str(e)` for a modelled exception. -/
def PyExn.str : PyExn → String
  | .smtpAuthError m => m
  | .smtpError m => m
  | .imapError m => m
  | .otherError m => m

/-- The headers the code sets on the composed MIME message, in order, plus the
attached body parts as (subtype, text) pairs. -/
structure MimeMessage where
  headers : List (String × String)
  parts : List (String × String)
deriving DecidableEq

/-- One observable network event of the embedded code.  `smtpOpen`/`imapOpen`
are emitted when a session is successfully established; `smtpQuit` /
`imapLogout` when the code closes it. -/
inductive Ev where
  | smtpOpen (server : String) (port : Nat)
  | smtpSent (fromAddr : String) (recipients : List String) (text : MimeMessage)
  | smtpQuit
  | imapOpen (server : String) (port : Nat)
  | imapSelected (folder : String)
  | imapSearched (criteria : String)
  | imapFetched (id : Nat)
  | imapLogout
deriving DecidableEq

/-- The process environment read through `os.getenv`.  `SMTP_PORT` and
`IMAP_PORT` carry `int(os.getenv('SMTP_PORT', 587))` resp.
`int(os.getenv('IMAP_PORT', 993))` already evaluated. -/
structure Env where
  EMAIL_ADDRESS : Option String
  EMAIL_PASSWORD : Option String
  SMTP_SERVER : Option String
  SMTP_PORT : Nat
  IMAP_SERVER : Option String
  IMAP_PORT : Nat

/-- One entry of the `smtp_configs` / `imap_configs` tables:
`{"server": ..., "port": ...}`.  The server is optional because the `custom`
entry reads `os.getenv('SMTP_SERVER')`, which may be absent. -/
structure HostPort where
  server : Option String
  port : Nat
deriving DecidableEq

/-- Python truthiness of an optional string: `None` and `""` are falsy. -/
def pyTruthy : Option String → Bool
  | none => false
  | some s => if s = "" then false else true

/-- Python `x or default` where `x` is an optional string: `None` and `""`
both select the default. -/
def pyOr (v : Option String) (d : String) : String :=
  match v with
  | none => d
  | some s => if s = "" then d else s

/-- Python `s.lower()`, written over the character list so that it reduces
in the kernel. -/
def pyLower (s : String) : String := String.mk (s.data.map Char.toLower)

/-- The `EmailConfig` object: provider name lowercased by `__init__`,
credentials read from the environment, and the environment kept for the
`custom` table entries. -/
structure EmailConfig where
  provider : String
  email_address : Option String
  email_password : Option String
  env : Env

/-- `EmailConfig.__init__`: lowercases the provider and reads
`EMAIL_ADDRESS` / `EMAIL_PASSWORD` from the environment. -/
def EmailConfig.ofEnv (env : Env) (provider : String) : EmailConfig :=
  { provider := pyLower provider
    email_address := env.EMAIL_ADDRESS
    email_password := env.EMAIL_PASSWORD
    env := env }

/-- The `smtp_configs` dictionary as a lookup function (`dict.get` without
default). -/
def EmailConfig.smtpConfigTable (c : EmailConfig) (name : String) : Option HostPort :=
  if name = "gmail" then some { server := some "smtp.gmail.com", port := 587 }
  else if name = "outlook" then some { server := some "smtp-mail.outlook.com", port := 587 }
  else if name = "yahoo" then some { server := some "smtp.mail.yahoo.com", port := 587 }
  else if name = "custom" then some { server := c.env.SMTP_SERVER, port := c.env.SMTP_PORT }
  else none

/-- The `imap_configs` dictionary as a lookup function. -/
def EmailConfig.imapConfigTable (c : EmailConfig) (name : String) : Option HostPort :=
  if name = "gmail" then some { server := some "imap.gmail.com", port := 993 }
  else if name = "outlook" then some { server := some "outlook.office365.com", port := 993 }
  else if name = "yahoo" then some { server := some "imap.mail.yahoo.com", port := 993 }
  else if name = "custom" then some { server := c.env.IMAP_SERVER, port := c.env.IMAP_PORT }
  else none

/-- `get_smtp_config`: `self.smtp_configs.get(self.provider, self.smtp_configs["gmail"])`. -/
def EmailConfig.get_smtp_config (c : EmailConfig) : HostPort :=
  (c.smtpConfigTable c.provider).getD { server := some "smtp.gmail.com", port := 587 }

/-- `get_imap_config`: `self.imap_configs.get(self.provider, self.imap_configs["gmail"])`. -/
def EmailConfig.get_imap_config (c : EmailConfig) : HostPort :=
  (c.imapConfigTable c.provider).getD { server := some "imap.gmail.com", port := 993 }

/-- `validate_credentials`: `bool(self.email_address and self.email_password)`. -/
def EmailConfig.validate_credentials (c : EmailConfig) : Bool :=
  pyTruthy c.email_address && pyTruthy c.email_password

/-- Which exception, if any, each SMTP-side primitive of a run raises:
`smtplib.SMTP(...)` (connect), `starttls()`, `login(...)`, `sendmail(...)`. -/
structure SmtpWorld where
  connectErr : Option PyExn
  starttlsErr : Option PyExn
  loginErr : Option PyExn
  sendErr : Option PyExn

/-- The dictionary `_send_email_helper` returns. -/
structure SendResult where
  success : Bool
  message : String
  timestamp : Option String
deriving DecidableEq

/-- Python `s.split(',')`. -/
def splitCommas (s : String) : List String := s.splitOn ","

/-- The transmit-time recipient list built by `_send_email_helper`:
`[to_email]`, extended by the comma-split CC and then the comma-split BCC
when those are truthy. -/
def sendRecipients (to_email : String) (cc_email bcc_email : Option String) : List String :=
  [to_email]
    ++ (if pyTruthy cc_email then splitCommas (pyOr cc_email "") else [])
    ++ (if pyTruthy bcc_email then splitCommas (pyOr bcc_email "") else [])

/-- Message composition in `_send_email_helper`: sets From/To/Subject, a Cc
header only when the CC argument is truthy, never a Bcc header, and attaches
one `html` or `plain` body part. -/
def composeMessage (fromAddr to_email subject : String) (cc_email : Option String)
    (body : String) (is_html : Bool) : MimeMessage :=
  { headers := [("From", fromAddr), ("To", to_email), ("Subject", subject)]
      ++ (if pyTruthy cc_email then [("Cc", pyOr cc_email "")] else [])
    parts := [(if is_html then "html" else "plain", body)] }

/-- The fixed "not configured" diagnostic of `_send_email_helper`. -/
def notConfiguredSendMsg : String :=
  "Email credentials not configured. Check EMAIL_ADDRESS and EMAIL_PASSWORD environment variables."

/-- The `except` clauses of `_send_email_helper`, in order:
`SMTPAuthenticationError`, `SMTPException`, `Exception`. -/
def sendExceptHandlers : PyExn → SendResult
  | .smtpAuthError _ =>
      { success := false
        message := "Authentication failed. Check your email credentials or use app-specific password."
        timestamp := none }
  | .smtpError m => { success := false, message := "SMTP error: " ++ m, timestamp := none }
  | .imapError m => { success := false, message := "Unexpected error: " ++ m, timestamp := none }
  | .otherError m => { success := false, message := "Unexpected error: " ++ m, timestamp := none }

/-- `_send_email_helper(to_email, subject, body, cc_email, bcc_email, is_html,
provider)`: returns the result dictionary together with the network-event
trace of the run.  `now` is `datetime.now().isoformat()`. -/
def sendEmailHelper (w : SmtpWorld) (now : String) (env : Env)
    (to_email subject body : String) (cc_email bcc_email : Option String)
    (is_html : Bool) (provider : String) : SendResult × List Ev :=
  let config := EmailConfig.ofEnv env provider
  if config.validate_credentials = false then
    ({ success := false, message := notConfiguredSendMsg, timestamp := none }, [])
  else
    let fromAddr := pyOr config.email_address ""
    let msg := composeMessage fromAddr to_email subject cc_email body is_html
    let smtp_config := config.get_smtp_config
    match w.connectErr with
    | some e => (sendExceptHandlers e, [])
    | none =>
      let tr := [Ev.smtpOpen (pyOr smtp_config.server "") smtp_config.port]
      match w.starttlsErr with
      | some e => (sendExceptHandlers e, tr)
      | none =>
        match w.loginErr with
        | some e => (sendExceptHandlers e, tr)
        | none =>
          let recipients := sendRecipients to_email cc_email bcc_email
          match w.sendErr with
          | some e => (sendExceptHandlers e, tr)
          | none =>
            ({ success := true
               message := "Email sent successfully to " ++ to_email
               timestamp := some now },
             tr ++ [Ev.smtpSent fromAddr recipients msg, Ev.smtpQuit])

/-- Valid UTF-8 continuation byte. -/
def utf8Cont (b : Nat) : Prop := 0x80 ≤ b ∧ b ≤ 0xBF

instance (b : Nat) : Decidable (utf8Cont b) :=
  inferInstanceAs (Decidable (0x80 ≤ b ∧ b ≤ 0xBF))

/-- Valid second byte after a three-byte lead `b1` (excludes overlong forms
and surrogates, as CPython's UTF-8 decoder does). -/
def utf8Cont3 (b1 b2 : Nat) : Prop :=
  if b1 = 0xE0 then 0xA0 ≤ b2 ∧ b2 ≤ 0xBF
  else if b1 = 0xED then 0x80 ≤ b2 ∧ b2 ≤ 0x9F
  else utf8Cont b2

instance (b1 b2 : Nat) : Decidable (utf8Cont3 b1 b2) := by
  unfold utf8Cont3; infer_instance

/-- Valid second byte after a four-byte lead `b1`. -/
def utf8Cont4 (b1 b2 : Nat) : Prop :=
  if b1 = 0xF0 then 0x90 ≤ b2 ∧ b2 ≤ 0xBF
  else if b1 = 0xF4 then 0x80 ≤ b2 ∧ b2 ≤ 0x8F
  else utf8Cont b2

instance (b1 b2 : Nat) : Decidable (utf8Cont4 b1 b2) := by
  unfold utf8Cont4; infer_instance

/-- CPython's UTF-8 decoder over a byte list, parameterised by what the error
handler inserts for each maximal invalid subpart: `[]` models
`errors='ignore'` and `[U+FFFD]` models `errors='replace'`.  Decoding never
fails; invalid input is consumed one maximal subpart at a time. -/
def utf8DecodeWith (repl : List Char) : List Nat → List Char
  | [] => []
  | b1 :: bs =>
    if b1 ≤ 0x7F then Char.ofNat b1 :: utf8DecodeWith repl bs
    else if 0xC2 ≤ b1 ∧ b1 ≤ 0xDF then
      match hm2 : bs with
      | [] => repl
      | b2 :: bs2 =>
        if utf8Cont b2 then
          Char.ofNat ((b1 - 0xC0) * 0x40 + (b2 - 0x80)) :: utf8DecodeWith repl bs2
        else repl ++ utf8DecodeWith repl bs
    else if 0xE0 ≤ b1 ∧ b1 ≤ 0xEF then
      match hm2 : bs with
      | [] => repl
      | b2 :: bs2 =>
        if utf8Cont3 b1 b2 then
          match hm3 : bs2 with
          | [] => repl
          | b3 :: bs3 =>
            if utf8Cont b3 then
              Char.ofNat ((b1 - 0xE0) * 0x1000 + (b2 - 0x80) * 0x40 + (b3 - 0x80))
                :: utf8DecodeWith repl bs3
            else repl ++ utf8DecodeWith repl bs2
        else repl ++ utf8DecodeWith repl bs
    else if 0xF0 ≤ b1 ∧ b1 ≤ 0xF4 then
      match hm2 : bs with
      | [] => repl
      | b2 :: bs2 =>
        if utf8Cont4 b1 b2 then
          match hm3 : bs2 with
          | [] => repl
          | b3 :: bs3 =>
            if utf8Cont b3 then
              match hm4 : bs3 with
              | [] => repl
              | b4 :: bs4 =>
                if utf8Cont b4 then
                  Char.ofNat ((b1 - 0xF0) * 0x40000 + (b2 - 0x80) * 0x1000
                      + (b3 - 0x80) * 0x40 + (b4 - 0x80))
                    :: utf8DecodeWith repl bs4
                else repl ++ utf8DecodeWith repl bs3
            else repl ++ utf8DecodeWith repl bs2
        else repl ++ utf8DecodeWith repl bs
    else repl ++ utf8DecodeWith repl bs
termination_by l => l.length
decreasing_by all_goals (simp_all <;> omega)

/-- `payload.decode('utf-8', errors='ignore')`: undecodable subparts are
dropped (the error handler inserts nothing). -/
def pyDecodeUtf8Ignore (bs : List Nat) : List Char := utf8DecodeWith [] bs

/-- Modelled from the spec: decoding that handles an undecodable byte
sequence by "substituting a replacement" character, i.e. `errors='replace'`
inserting U+FFFD.  This follows the spec's words and exists only to be
compared with `pyDecodeUtf8Ignore`, the decoding the code performs. -/
def specDecodeUtf8Replace (bs : List Nat) : List Char :=
  utf8DecodeWith [Char.ofNat 0xFFFD] bs

/-- One MIME part of a fetched message, as the reader inspects it:
`get_content_type()` and `get_payload(decode=True)`. -/
structure RawPart where
  contentType : String
  payload : List Nat
deriving DecidableEq

/-- A fetched wire message after `email.message_from_bytes`: the four headers
the reader looks at (`None` when absent), the part list when the message is
multipart, and the single decoded-payload bytes otherwise. -/
structure RawMsg where
  subject : Option String
  fromAddr : Option String
  date : Option String
  toAddr : Option String
  parts : Option (List RawPart)
  payload : List Nat
deriving DecidableEq

/-- Body extraction of `_read_emails_helper`: if multipart, the payload of
the first part whose content type is `text/plain` (the body stays `""` when
no such part exists); otherwise the single payload — decoded with
`errors='ignore'` in both cases. -/
def extractBody (m : RawMsg) : List Char :=
  match m.parts with
  | some parts =>
    match parts.find? (fun p => p.contentType == "text/plain") with
    | some p => pyDecodeUtf8Ignore p.payload
    | none => []
  | none => pyDecodeUtf8Ignore m.payload

/-- `body[:200] + "..." if len(body) > 200 else body`. -/
def bodyPreview (body : List Char) : String :=
  if 200 < body.length then String.mk (body.take 200) ++ "..." else String.mk body

/-- The per-message dictionary built by the reader's loop. -/
structure EmailInfo where
  id : String
  subject : String
  fromAddr : String
  date : String
  toAddr : String
  body_preview : String
deriving DecidableEq

/-- The `email_info` dictionary for one fetched message: headers with
Python-`or` defaults, the configured address as the To fallback, and the
truncated body preview. -/
def parseEmailInfo (configAddr : String) (email_id : Nat) (m : RawMsg) : EmailInfo :=
  { id := toString email_id
    subject := pyOr m.subject "No Subject"
    fromAddr := pyOr m.fromAddr "Unknown Sender"
    date := pyOr m.date "Unknown Date"
    toAddr := pyOr m.toAddr configAddr
    body_preview := bodyPreview (extractBody m) }

/-- Outcome of one `mail.fetch(email_id, '(RFC822)')` call: it may raise, may
return a non-`'OK'` status, or return the message bytes. -/
inductive FetchOutcome where
  | raiseExn (e : PyExn)
  | notOK
  | ok (m : RawMsg)

/-- Which exception, if any, each IMAP-side primitive raises, plus the data
the server returns: `IMAP4_SSL(...)` (connect), `login`, `select`, `search`
(status flag `result == 'OK'` and the identifier list), and `fetch` per
identifier. -/
structure ImapWorld where
  connectErr : Option PyExn
  loginErr : Option PyExn
  selectErr : Option PyExn
  searchOutcome : Except PyExn (Bool × List Nat)
  fetch : Nat → FetchOutcome

/-- The dictionary `_read_emails_helper` returns.  `count` is `none` on the
failure dictionaries, which carry no `count` key. -/
structure ReadResult where
  success : Bool
  message : String
  count : Option Nat
  emails : List EmailInfo
deriving DecidableEq

/-- The `except` clauses of `_read_emails_helper`: `imaplib.IMAP4.error`,
then `Exception`. -/
def readExceptHandlers : PyExn → ReadResult
  | .imapError m => { success := false, message := "IMAP error: " ++ m, count := none, emails := [] }
  | e => { success := false, message := "Unexpected error: " ++ e.str, count := none, emails := [] }

/-- Python `email_ids[-limit:]`; for `limit = 0` the slice `[-0:]` is the
whole list. -/
def pySliceLastN (n : Nat) (l : List α) : List α :=
  if n = 0 then l else l.drop (l.length - n)

/-- The reader's fetch/parse loop over the (already reversed) identifier
list: a raising fetch aborts the loop losing the summaries collected so far,
a non-`'OK'` fetch is skipped silently, and a successful fetch appends its
parsed summary. -/
def fetchLoop (w : ImapWorld) (configAddr : String) : List Nat → Except PyExn (List EmailInfo) × List Ev
  | [] => (Except.ok [], [])
  | i :: rest =>
    match w.fetch i with
    | .raiseExn e => (Except.error e, [Ev.imapFetched i])
    | .notOK =>
      let r := fetchLoop w configAddr rest
      (r.1, Ev.imapFetched i :: r.2)
    | .ok m =>
      let r := fetchLoop w configAddr rest
      match r.1 with
      | .error e => (Except.error e, Ev.imapFetched i :: r.2)
      | .ok infos => (Except.ok (parseEmailInfo configAddr i m :: infos), Ev.imapFetched i :: r.2)

/-- `_read_emails_helper(folder, limit, unread_only, provider)`: result
dictionary plus the network-event trace. -/
def readEmailsHelper (w : ImapWorld) (env : Env) (folder : String) (limit : Nat)
    (unread_only : Bool) (provider : String) : ReadResult × List Ev :=
  let config := EmailConfig.ofEnv env provider
  if config.validate_credentials = false then
    ({ success := false, message := "Email credentials not configured.", count := none, emails := [] }, [])
  else
    let imap_config := config.get_imap_config
    match w.connectErr with
    | some e => (readExceptHandlers e, [])
    | none =>
      let tr0 := [Ev.imapOpen (pyOr imap_config.server "") imap_config.port]
      match w.loginErr with
      | some e => (readExceptHandlers e, tr0)
      | none =>
        match w.selectErr with
        | some e => (readExceptHandlers e, tr0)
        | none =>
          let search_criteria := if unread_only then "UNSEEN" else "ALL"
          let tr1 := tr0 ++ [Ev.imapSelected folder, Ev.imapSearched search_criteria]
          match w.searchOutcome with
          | .error e => (readExceptHandlers e, tr1)
          | .ok (okFlag, ids) =>
            if okFlag = false then
              ({ success := false, message := "Failed to search emails", count := none, emails := [] }, tr1)
            else
              let email_ids := pySliceLastN limit ids
              let r := fetchLoop w (pyOr config.email_address "") email_ids.reverse
              match r.1 with
              | .error e => (readExceptHandlers e, tr1 ++ r.2)
              | .ok emails =>
                ({ success := true
                   message := "Retrieved " ++ toString emails.length ++ " emails from " ++ folder
                   count := some emails.length
                   emails := emails }, tr1 ++ r.2 ++ [Ev.imapLogout])

/-- The dictionary `_test_email_connection_helper` returns. -/
structure TestResult where
  success : Bool
  message : String
  provider : String
  email : Option String
  smtp_server : Option String
  imap_server : Option String
deriving DecidableEq

/-- The single `except Exception` clause of `_test_email_connection_helper`. -/
def testExceptHandlers (provider : String) (e : PyExn) : TestResult :=
  { success := false, message := "Connection failed: " ++ e.str, provider := provider
    email := none, smtp_server := none, imap_server := none }

/-- `_test_email_connection_helper(provider)`: tests the SMTP leg (connect,
starttls, login, quit) then the IMAP leg (connect, login, logout). -/
def testEmailConnectionHelper (sw : SmtpWorld) (iw : ImapWorld) (env : Env)
    (provider : String) : TestResult × List Ev :=
  let config := EmailConfig.ofEnv env provider
  if config.validate_credentials = false then
    ({ success := false, message := "Email credentials not configured", provider := provider
       email := none, smtp_server := none, imap_server := none }, [])
  else
    let smtp_config := config.get_smtp_config
    match sw.connectErr with
    | some e => (testExceptHandlers provider e, [])
    | none =>
      let tr0 := [Ev.smtpOpen (pyOr smtp_config.server "") smtp_config.port]
      match sw.starttlsErr with
      | some e => (testExceptHandlers provider e, tr0)
      | none =>
        match sw.loginErr with
        | some e => (testExceptHandlers provider e, tr0)
        | none =>
          let tr1 := tr0 ++ [Ev.smtpQuit]
          let imap_config := config.get_imap_config
          match iw.connectErr with
          | some e => (testExceptHandlers provider e, tr1)
          | none =>
            let tr2 := tr1 ++ [Ev.imapOpen (pyOr imap_config.server "") imap_config.port]
            match iw.loginErr with
            | some e => (testExceptHandlers provider e, tr2)
            | none =>
              ({ success := true, message := "Email connection successful", provider := provider
                 email := config.email_address
                 smtp_server := some (pyOr smtp_config.server "" ++ ":" ++ toString smtp_config.port)
                 imap_server := some (pyOr imap_config.server "" ++ ":" ++ toString imap_config.port) },
               tr2 ++ [Ev.imapLogout])

/-- `min(max(1, limit), 20)` from `read_recent_emails`. -/
def pyClampLimit (n : Int) : Int := min (max 1 n) 20

/-- The `@tool()` wrapper `send_email(to_email, subject, body, cc_email)`. -/
def send_email (w : SmtpWorld) (now : String) (env : Env)
    (to_email subject body : String) (cc_email : Option String) : String :=
  let result := (sendEmailHelper w now env to_email subject body cc_email none false "gmail").1
  if result.success then
    "✅ Email sent successfully to " ++ to_email ++ "\n📧 Subject: " ++ subject
      ++ "\n⏰ Sent at: " ++ pyOr result.timestamp ""
  else
    "❌ Failed to send email: " ++ result.message

/-- One numbered entry of the list `read_recent_emails` renders. -/
def formatEmailSummary (i : Nat) (e : EmailInfo) : String :=
  toString i ++ ". 📧 From: " ++ e.fromAddr ++ "\n   📝 Subject: " ++ e.subject
    ++ "\n   📅 Date: " ++ e.date ++ "\n   💬 Preview: " ++ e.body_preview ++ "\n"

/-- The `@tool()` wrapper `read_recent_emails(limit, unread_only)`: coerces
the unread flag, clamps the limit to [1,20], and renders the result. -/
def read_recent_emails (w : ImapWorld) (env : Env) (limit : Int) (unread_only : String) : String :=
  let unread_filter := pyLower unread_only == "true"
  let email_limit := (pyClampLimit limit).toNat
  let result := (readEmailsHelper w env "INBOX" email_limit unread_filter "gmail").1
  if result.success then
    if 0 < (result.count).getD 0 then
      let entries := (List.range result.emails.length).zip result.emails
      let email_list := entries.map (fun p => formatEmailSummary (p.1 + 1) p.2)
      let filter_text := if unread_filter then " (unread only)" else ""
      "📬 Recent Emails" ++ filter_text ++ ":\n\n" ++ String.intercalate "\n" email_list
    else
      let filter_text := if unread_filter then "unread " else ""
      "📭 No " ++ filter_text ++ "emails found in inbox"
  else
    "❌ Failed to read emails: " ++ result.message

/-- The `@tool()` wrapper `test_email_connection()`. -/
def test_email_connection (sw : SmtpWorld) (iw : ImapWorld) (env : Env) : String :=
  let result := (testEmailConnectionHelper sw iw env "gmail").1
  if result.success then
    "✅ Email Connection Successful!\n📧 Email: " ++ pyOr result.email ""
      ++ "\n🌐 Provider: " ++ result.provider
      ++ "\n📤 SMTP: " ++ pyOr result.smtp_server ""
      ++ "\n📥 IMAP: " ++ pyOr result.imap_server ""
  else
    "❌ Email Connection Failed: " ++ result.message

/-- The `@tool()` wrapper `send_quick_notification(recipient, message)`.
`timestamp` is `datetime.now().strftime(...)`; the body is the notification
template with `.strip()` applied. -/
def send_quick_notification (w : SmtpWorld) (now timestamp : String) (env : Env)
    (recipient message : String) : String :=
  let subject := "Notification - " ++ timestamp
  let body := "🔔 Notification from WatsonX Agent\n\n📅 Time: " ++ timestamp
    ++ "\n💬 Message: " ++ message
    ++ "\n\n---\nThis is an automated notification sent by WatsonX Orchestrate Agent."
  let result := (sendEmailHelper w now env recipient subject body none none false "gmail").1
  if result.success then
    "🔔 Notification sent successfully to " ++ recipient ++ "\n💬 Message: " ++ message
  else
    "❌ Failed to send notification: " ++ result.message

/-! Concrete environments, worlds and messages used by witnesses and
counterexamples. -/

/-- Environment with no credentials configured. -/
def envNoCreds : Env :=
  { EMAIL_ADDRESS := none, EMAIL_PASSWORD := none, SMTP_SERVER := none, SMTP_PORT := 587
    IMAP_SERVER := none, IMAP_PORT := 993 }

/-- Environment with credentials configured. -/
def envCreds : Env :=
  { EMAIL_ADDRESS := some "me@x.com", EMAIL_PASSWORD := some "pw", SMTP_SERVER := none
    SMTP_PORT := 587, IMAP_SERVER := none, IMAP_PORT := 993 }

/-- An SMTP run in which every primitive succeeds. -/
def swAllOk : SmtpWorld :=
  { connectErr := none, starttlsErr := none, loginErr := none, sendErr := none }

/-- An SMTP run in which `login` raises `SMTPAuthenticationError`. -/
def swAuthFail : SmtpWorld :=
  { connectErr := none, starttlsErr := none
    loginErr := some (PyExn.smtpAuthError "535 authentication rejected"), sendErr := none }

/-- An IMAP run that succeeds with an empty mailbox. -/
def iwAllOk : ImapWorld :=
  { connectErr := none, loginErr := none, selectErr := none
    searchOutcome := Except.ok (true, []), fetch := fun _ => FetchOutcome.notOK }

/-- A simple fetched message for identifier `i`. -/
def msgFor (i : Nat) : RawMsg :=
  { subject := some ("msg" ++ toString i), fromAddr := none, date := none, toAddr := none
    parts := none, payload := [] }

/-- An IMAP run whose search finds identifiers 1..5 (oldest first) and whose
fetches all succeed. -/
def iwFiveMsgs : ImapWorld :=
  { connectErr := none, loginErr := none, selectErr := none
    searchOutcome := Except.ok (true, [1, 2, 3, 4, 5])
    fetch := fun i => FetchOutcome.ok (msgFor i) }

/-- A non-multipart message whose payload is the single undecodable byte 0xFF. -/
def rawMsgBadByte : RawMsg :=
  { subject := none, fromAddr := none, date := none, toAddr := none, parts := none
    payload := [0xFF] }

/-- A well-formed plain message with payload "hi". -/
def rawMsgPlain : RawMsg :=
  { subject := some "s", fromAddr := some "f", date := some "d", toAddr := some "t"
    parts := none, payload := [104, 105] }

/-- An IMAP run whose search finds [1, 2], whose fetch of 2 (processed first)
succeeds, and whose fetch of 1 (processed second) raises an unexpected
exception: the loop fails after one summary has been built. -/
def iwMidLoopFail : ImapWorld :=
  { connectErr := none, loginErr := none, selectErr := none
    searchOutcome := Except.ok (true, [1, 2])
    fetch := fun i => if i = 2 then FetchOutcome.ok rawMsgPlain
      else FetchOutcome.raiseExn (PyExn.otherError "connection reset") }

/-! Step lemmas for the UTF-8 decoder (it is defined by well-founded
recursion, so concrete evaluation goes through its equations). -/

/-- An ASCII byte decodes to itself and decoding continues. -/
theorem utf8DecodeWith_ascii (repl : List Char) (b : Nat) (bs : List Nat) (hb : b ≤ 0x7F) :
    utf8DecodeWith repl (b :: bs) = Char.ofNat b :: utf8DecodeWith repl bs := by
  conv_lhs => rw [utf8DecodeWith.eq_def]
  dsimp only
  rw [if_pos hb]

/-- A byte that can never start a UTF-8 sequence (a stray continuation byte,
an overlong lead 0xC0/0xC1, or a lead above 0xF4) is one maximal invalid
subpart: the handler output is emitted and decoding continues after it. -/
theorem utf8DecodeWith_invalid_lead (repl : List Char) (b : Nat) (bs : List Nat)
    (hb1 : 0x80 ≤ b) (hb2 : b ≤ 0xC1 ∨ 0xF5 ≤ b) :
    utf8DecodeWith repl (b :: bs) = repl ++ utf8DecodeWith repl bs := by
  conv_lhs => rw [utf8DecodeWith.eq_def]
  dsimp only
  rw [if_neg (by omega), if_neg (by rcases hb2 with h | h <;> omega),
    if_neg (by rcases hb2 with h | h <;> omega), if_neg (by rcases hb2 with h | h <;> omega)]

/-! Claim theorems. -/

/-- C5: for every provider name that (after the constructor's lowercasing)
is none of `gmail`, `outlook`, `yahoo`, `custom`, configuration resolution
returns the gmail profile for both SMTP and IMAP, deterministically and
without error. -/
theorem unknown_provider_falls_back_to_gmail (env : Env) (p : String)
    (h : pyLower p ∉ (["gmail", "outlook", "yahoo", "custom"] : List String)) :
    (EmailConfig.ofEnv env p).get_smtp_config = { server := some "smtp.gmail.com", port := 587 }
    ∧ (EmailConfig.ofEnv env p).get_imap_config = { server := some "imap.gmail.com", port := 993 } := by
  simp only [List.mem_cons, List.not_mem_nil, or_false, not_or] at h
  obtain ⟨h1, h2, h3, h4⟩ := h
  constructor <;>
    simp [EmailConfig.ofEnv, EmailConfig.get_smtp_config, EmailConfig.get_imap_config,
      EmailConfig.smtpConfigTable, EmailConfig.imapConfigTable, h1, h2, h3, h4]

/-- Witness for C5 at the unknown provider name "protonmail". -/
theorem unknown_provider_falls_back_to_gmail_witness :
    (EmailConfig.ofEnv envCreds "protonmail").get_smtp_config
      = { server := some "smtp.gmail.com", port := 587 }
    ∧ (EmailConfig.ofEnv envCreds "protonmail").get_imap_config
      = { server := some "imap.gmail.com", port := 993 } :=
  unknown_provider_falls_back_to_gmail envCreds "protonmail" (by decide)

/-- C6: the body preview equals the full body when it has at most 200
characters, and equals the first 200 characters followed by the ellipsis
marker when longer. -/
theorem body_preview_truncation (body : List Char) :
    (body.length ≤ 200 → bodyPreview body = String.mk body)
    ∧ (200 < body.length → bodyPreview body = String.mk (body.take 200) ++ "...") := by
  constructor <;> intro h <;> unfold bodyPreview
  · rw [if_neg (by omega)]
  · rw [if_pos h]

/-- Witness for C6 at bodies of length 150 and 250. -/
theorem body_preview_truncation_witness :
    bodyPreview (List.replicate 150 'a') = String.mk (List.replicate 150 'a')
    ∧ bodyPreview (List.replicate 250 'a')
      = String.mk ((List.replicate 250 'a').take 200) ++ "..." :=
  ⟨(body_preview_truncation (List.replicate 150 'a')).1 (by rw [List.length_replicate]; omega),
   (body_preview_truncation (List.replicate 250 'a')).2 (by rw [List.length_replicate]; omega)⟩

/-- C8: `min(max(1, limit), 20)` clamps every integer limit to [1,20]:
values below 1 become 1, values above 20 become 20, values already inside
are unchanged. -/
theorem limit_clamped (n : Int) :
    (n < 1 → pyClampLimit n = 1) ∧ (20 < n → pyClampLimit n = 20)
    ∧ (1 ≤ n → n ≤ 20 → pyClampLimit n = n) := by
  unfold pyClampLimit
  refine ⟨fun h => ?_, fun h => ?_, fun h1 h2 => ?_⟩ <;> omega

/-- Witness for C8 at n = 0, n = 50 and n = 7. -/
theorem limit_clamped_witness :
    pyClampLimit 0 = 1 ∧ pyClampLimit 50 = 20 ∧ pyClampLimit 7 = 7 :=
  ⟨(limit_clamped 0).1 (by decide), (limit_clamped 50).2.1 (by decide),
   (limit_clamped 7).2.2 (by decide) (by decide)⟩

/-- C2: with recipient A, non-empty CC string B and non-empty BCC string C,
the transmit-time recipient list is [A] ++ B split on commas ++ C split on
commas, and the composed message's header keys are exactly From, To,
Subject, Cc — in particular no Bcc key exists, so BCC recipients appear in
no header. -/
theorem bcc_not_in_headers (A B C fromAddr subject body : String) (is_html : Bool)
    (hB : B ≠ "") (hC : C ≠ "") :
    sendRecipients A (some B) (some C) = [A] ++ B.splitOn "," ++ C.splitOn ","
    ∧ (composeMessage fromAddr A subject (some B) body is_html).headers.map Prod.fst
        = ["From", "To", "Subject", "Cc"]
    ∧ "Bcc" ∉ (composeMessage fromAddr A subject (some B) body is_html).headers.map Prod.fst := by
  have htB : pyTruthy (some B) = true := by simp [pyTruthy, hB]
  have htC : pyTruthy (some C) = true := by simp [pyTruthy, hC]
  have hmap : (composeMessage fromAddr A subject (some B) body is_html).headers.map Prod.fst
      = ["From", "To", "Subject", "Cc"] := by
    simp [composeMessage, htB]
  refine ⟨?_, hmap, ?_⟩
  · simp [sendRecipients, htB, htC, splitCommas, pyOr, hB, hC]
  · rw [hmap]; decide

/-- Witness for C2 at concrete addresses. -/
theorem bcc_not_in_headers_witness :
    sendRecipients "a@x.com" (some "b@x.com,c@x.com") (some "d@x.com")
      = ["a@x.com"] ++ "b@x.com,c@x.com".splitOn "," ++ "d@x.com".splitOn ","
    ∧ (composeMessage "me@x.com" "a@x.com" "hello" (some "b@x.com,c@x.com") "text" false).headers.map Prod.fst
        = ["From", "To", "Subject", "Cc"]
    ∧ "Bcc" ∉ (composeMessage "me@x.com" "a@x.com" "hello" (some "b@x.com,c@x.com") "text" false).headers.map Prod.fst :=
  bcc_not_in_headers "a@x.com" "b@x.com,c@x.com" "d@x.com" "me@x.com" "hello" "text" false
    (by decide) (by decide)

set_option maxRecDepth 4000 in
/-- C1: with an empty or missing configured address or password, all three
operations return their fixed "not configured" failure immediately and their
network-event trace is empty: no SMTP or IMAP session is ever opened. -/
theorem creds_missing_no_network (env : Env)
    (h : pyTruthy env.EMAIL_ADDRESS = false ∨ pyTruthy env.EMAIL_PASSWORD = false)
    (sw : SmtpWorld) (iw : ImapWorld)
    (now to_email subject body folder provider : String)
    (cc_email bcc_email : Option String) (is_html unread_only : Bool) (limit : Nat) :
    sendEmailHelper sw now env to_email subject body cc_email bcc_email is_html provider
      = ({ success := false, message := notConfiguredSendMsg, timestamp := none }, [])
    ∧ readEmailsHelper iw env folder limit unread_only provider
      = ({ success := false, message := "Email credentials not configured.", count := none,
           emails := [] }, [])
    ∧ testEmailConnectionHelper sw iw env provider
      = ({ success := false, message := "Email credentials not configured", provider := provider,
           email := none, smtp_server := none, imap_server := none }, []) := by
  have hv : (EmailConfig.ofEnv env provider).validate_credentials = false := by
    unfold EmailConfig.validate_credentials EmailConfig.ofEnv
    rcases h with h | h <;> simp [h]
  refine ⟨?_, ?_, ?_⟩
  · unfold sendEmailHelper; simp only [hv]; rfl
  · unfold readEmailsHelper; simp only [hv]; rfl
  · unfold testEmailConnectionHelper; simp only [hv]; rfl

/-- Witness for C1 with both credentials missing. -/
theorem creds_missing_no_network_witness :
    sendEmailHelper swAllOk "2024-01-01T00:00:00" envNoCreds "a@x.com" "hello" "text"
        none none false "gmail"
      = ({ success := false, message := notConfiguredSendMsg, timestamp := none }, [])
    ∧ readEmailsHelper iwAllOk envNoCreds "INBOX" 5 false "gmail"
      = ({ success := false, message := "Email credentials not configured.", count := none,
           emails := [] }, [])
    ∧ testEmailConnectionHelper swAllOk iwAllOk envNoCreds "gmail"
      = ({ success := false, message := "Email credentials not configured", provider := "gmail",
           email := none, smtp_server := none, imap_server := none }, []) :=
  creds_missing_no_network envNoCreds (Or.inl rfl) swAllOk iwAllOk "2024-01-01T00:00:00"
    "a@x.com" "hello" "text" "INBOX" "gmail" none none false false 5

/-- C7 counterexample: the code decodes with `errors='ignore'`, so the
undecodable byte 0xFF is dropped from the output — no replacement character
is substituted, contrary to the claim.  `specDecodeUtf8Replace`, built from
the spec's words, would produce U+FFFD instead, and the two disagree. -/
theorem decode_replacement_counterexample :
    pyDecodeUtf8Ignore [0xFF] = []
    ∧ specDecodeUtf8Replace [0xFF] = [Char.ofNat 0xFFFD]
    ∧ pyDecodeUtf8Ignore [0xFF] ≠ specDecodeUtf8Replace [0xFF]
    ∧ extractBody rawMsgBadByte = [] := by
  have h1 : pyDecodeUtf8Ignore [0xFF] = [] := by
    rw [pyDecodeUtf8Ignore, utf8DecodeWith_invalid_lead [] 0xFF [] (by omega) (Or.inr (by omega)),
      utf8DecodeWith.eq_1]
    rfl
  have h2 : specDecodeUtf8Replace [0xFF] = [Char.ofNat 0xFFFD] := by
    rw [specDecodeUtf8Replace,
      utf8DecodeWith_invalid_lead [Char.ofNat 0xFFFD] 0xFF [] (by omega) (Or.inr (by omega)),
      utf8DecodeWith.eq_1]
    rfl
  refine ⟨h1, h2, ?_, ?_⟩
  · rw [h1, h2]; simp
  · simp [extractBody, rawMsgBadByte, h1]

/-- C7 amended: undecodable byte sequences are tolerated by omitting them
from the decoded text rather than raising an error: a lone invalid byte
after any ASCII prefix decodes to exactly the decoding of the rest, and the
function is total, so the read never fails. -/
theorem decode_ignore_drops_bad_bytes (pre post : List Nat) (b : Nat)
    (hpre : ∀ x ∈ pre, x ≤ 0x7F) (hb1 : 0x80 ≤ b) (hb2 : b ≤ 0xC1 ∨ 0xF5 ≤ b) :
    pyDecodeUtf8Ignore (pre ++ b :: post)
      = pyDecodeUtf8Ignore pre ++ pyDecodeUtf8Ignore post := by
  induction pre with
  | nil =>
    simp only [List.nil_append, pyDecodeUtf8Ignore]
    rw [utf8DecodeWith_invalid_lead [] b post hb1 hb2, utf8DecodeWith.eq_1]
  | cons a rest ih =>
    have ha : a ≤ 0x7F := hpre a (List.mem_cons_self a rest)
    have hrest := ih (fun x hx => hpre x (List.mem_cons_of_mem a hx))
    simp only [pyDecodeUtf8Ignore, List.cons_append] at hrest ⊢
    rw [utf8DecodeWith_ascii [] a (rest ++ b :: post) ha, hrest,
      utf8DecodeWith_ascii [] a rest ha, List.cons_append]

/-- Witness for C7's amended claim: "hi" ++ 0xFF ++ "j" decodes to "hi" ++ "j". -/
theorem decode_ignore_drops_bad_bytes_witness :
    pyDecodeUtf8Ignore ([104, 105] ++ 255 :: [106])
      = pyDecodeUtf8Ignore [104, 105] ++ pyDecodeUtf8Ignore [106] :=
  decode_ignore_drops_bad_bytes [104, 105] [106] 255 (by decide) (by omega) (Or.inr (by omega))

/-! Lemmas about the reader's fetch loop and the exception handlers. -/

/-- The fetch loop emits only fetch events: it never closes the session. -/
theorem fetchLoop_no_logout (w : ImapWorld) (configAddr : String) (l : List Nat) :
    Ev.imapLogout ∉ (fetchLoop w configAddr l).2 := by
  induction l with
  | nil => simp [fetchLoop]
  | cons i rest ih =>
    cases hf : w.fetch i with
    | raiseExn e => simp [fetchLoop, hf]
    | notOK => simp [fetchLoop, hf, ih]
    | ok m =>
      cases hr : (fetchLoop w configAddr rest).1 with
      | error e => simp [fetchLoop, hf, hr, ih]
      | ok infos => simp [fetchLoop, hf, hr, ih]

/-- When every fetch in the list succeeds, the loop returns the parsed
summaries of the identifiers in list order. -/
theorem fetchLoop_all_ok (w : ImapWorld) (configAddr : String) (msgf : Nat → RawMsg)
    (l : List Nat) (h : ∀ i ∈ l, w.fetch i = FetchOutcome.ok (msgf i)) :
    (fetchLoop w configAddr l).1
      = Except.ok (l.map (fun i => parseEmailInfo configAddr i (msgf i))) := by
  induction l with
  | nil => rfl
  | cons i rest ih =>
    have hi := h i (List.mem_cons_self i rest)
    have hr := ih (fun j hj => h j (List.mem_cons_of_mem i hj))
    simp [fetchLoop, hi, hr]

/-- Every branch of the send helper's exception handling reports failure. -/
theorem sendExceptHandlers_success (e : PyExn) : (sendExceptHandlers e).success = false := by
  cases e <;> rfl

/-- Every branch of the read helper's exception handling reports failure. -/
theorem readExceptHandlers_success (e : PyExn) : (readExceptHandlers e).success = false := by
  cases e <;> rfl

/-- Every branch of the read helper's exception handling returns an empty
email list. -/
theorem readExceptHandlers_emails (e : PyExn) : (readExceptHandlers e).emails = [] := by
  cases e <;> rfl

/-- The send handlers produce one of the three taxonomy diagnostics. -/
theorem sendExceptHandlers_message (e : PyExn) :
    (sendExceptHandlers e).message
        = "Authentication failed. Check your email credentials or use app-specific password."
    ∨ (∃ m, (sendExceptHandlers e).message = "SMTP error: " ++ m)
    ∨ (∃ m, (sendExceptHandlers e).message = "Unexpected error: " ++ m) := by
  cases e with
  | smtpAuthError m => exact Or.inl rfl
  | smtpError m => exact Or.inr (Or.inl ⟨m, rfl⟩)
  | imapError m => exact Or.inr (Or.inr ⟨m, rfl⟩)
  | otherError m => exact Or.inr (Or.inr ⟨m, rfl⟩)

/-- The read handlers produce one of the two taxonomy diagnostics. -/
theorem readExceptHandlers_message (e : PyExn) :
    (∃ m, (readExceptHandlers e).message = "IMAP error: " ++ m)
    ∨ (∃ m, (readExceptHandlers e).message = "Unexpected error: " ++ m) := by
  cases e with
  | imapError m => exact Or.inl ⟨m, rfl⟩
  | smtpAuthError m => exact Or.inr ⟨m, rfl⟩
  | smtpError m => exact Or.inr ⟨m, rfl⟩
  | otherError m => exact Or.inr ⟨m, rfl⟩

/-- Every failing send run returns either the configuration failure or the
output of one of the `except` handlers. -/
theorem sendEmailHelper_failure_form (sw : SmtpWorld) (now : String) (env : Env)
    (to_email subject body : String) (cc_email bcc_email : Option String)
    (is_html : Bool) (provider : String)
    (h : (sendEmailHelper sw now env to_email subject body cc_email bcc_email is_html provider).1.success = false) :
    (sendEmailHelper sw now env to_email subject body cc_email bcc_email is_html provider).1
      = { success := false, message := notConfiguredSendMsg, timestamp := none }
    ∨ ∃ e, (sendEmailHelper sw now env to_email subject body cc_email bcc_email is_html provider).1
      = sendExceptHandlers e := by
  obtain ⟨c1, c2, c3, c4⟩ := sw
  cases hv : (EmailConfig.ofEnv env provider).validate_credentials
  · exact Or.inl (by simp [sendEmailHelper, hv])
  · cases c1 with
    | some e => exact Or.inr ⟨e, by simp [sendEmailHelper, hv]⟩
    | none =>
      cases c2 with
      | some e => exact Or.inr ⟨e, by simp [sendEmailHelper, hv]⟩
      | none =>
        cases c3 with
        | some e => exact Or.inr ⟨e, by simp [sendEmailHelper, hv]⟩
        | none =>
          cases c4 with
          | some e => exact Or.inr ⟨e, by simp [sendEmailHelper, hv]⟩
          | none => exact absurd h (by simp [sendEmailHelper, hv])

/-- Every failing read run returns the configuration failure, the search
failure, or the output of one of the `except` handlers. -/
theorem readEmailsHelper_failure_form (iw : ImapWorld) (env : Env) (folder : String)
    (limit : Nat) (unread_only : Bool) (provider : String)
    (h : (readEmailsHelper iw env folder limit unread_only provider).1.success = false) :
    (readEmailsHelper iw env folder limit unread_only provider).1
      = { success := false, message := "Email credentials not configured.", count := none, emails := [] }
    ∨ (readEmailsHelper iw env folder limit unread_only provider).1
      = { success := false, message := "Failed to search emails", count := none, emails := [] }
    ∨ ∃ e, (readEmailsHelper iw env folder limit unread_only provider).1 = readExceptHandlers e := by
  obtain ⟨c1, c2, c3, so, f⟩ := iw
  cases hv : (EmailConfig.ofEnv env provider).validate_credentials
  · exact Or.inl (by simp [readEmailsHelper, hv])
  · cases c1 with
    | some e => exact Or.inr (Or.inr ⟨e, by simp [readEmailsHelper, hv]⟩)
    | none =>
      cases c2 with
      | some e => exact Or.inr (Or.inr ⟨e, by simp [readEmailsHelper, hv]⟩)
      | none =>
        cases c3 with
        | some e => exact Or.inr (Or.inr ⟨e, by simp [readEmailsHelper, hv]⟩)
        | none =>
          cases so with
          | error e => exact Or.inr (Or.inr ⟨e, by simp [readEmailsHelper, hv]⟩)
          | ok pr =>
            obtain ⟨flag, ids⟩ := pr
            cases flag
            · exact Or.inr (Or.inl (by simp [readEmailsHelper, hv]))
            · cases hr : (fetchLoop ⟨none, none, none, Except.ok (true, ids), f⟩
                  (pyOr (EmailConfig.ofEnv env provider).email_address "")
                  (pySliceLastN limit ids).reverse).1 with
              | error e =>
                exact Or.inr (Or.inr ⟨e, by simp [readEmailsHelper, hv, hr]⟩)
              | ok emails =>
                exfalso
                simp [readEmailsHelper, hv, hr] at h

/-- Every failing connection test returns the configuration failure or the
output of the single `except` handler. -/
theorem testEmailConnectionHelper_failure_form (sw : SmtpWorld) (iw : ImapWorld)
    (env : Env) (provider : String)
    (h : (testEmailConnectionHelper sw iw env provider).1.success = false) :
    (testEmailConnectionHelper sw iw env provider).1
      = { success := false, message := "Email credentials not configured", provider := provider,
          email := none, smtp_server := none, imap_server := none }
    ∨ ∃ e, (testEmailConnectionHelper sw iw env provider).1 = testExceptHandlers provider e := by
  obtain ⟨c1, c2, c3, c4⟩ := sw
  obtain ⟨d1, d2, d3, so, f⟩ := iw
  cases hv : (EmailConfig.ofEnv env provider).validate_credentials
  · exact Or.inl (by simp [testEmailConnectionHelper, hv])
  · cases c1 with
    | some e => exact Or.inr ⟨e, by simp [testEmailConnectionHelper, hv]⟩
    | none =>
      cases c2 with
      | some e => exact Or.inr ⟨e, by simp [testEmailConnectionHelper, hv]⟩
      | none =>
        cases c3 with
        | some e => exact Or.inr ⟨e, by simp [testEmailConnectionHelper, hv]⟩
        | none =>
          cases d1 with
          | some e => exact Or.inr ⟨e, by simp [testEmailConnectionHelper, hv]⟩
          | none =>
            cases d2 with
            | some e => exact Or.inr ⟨e, by simp [testEmailConnectionHelper, hv]⟩
            | none => exact absurd h (by simp [testEmailConnectionHelper, hv])

/-- C3 counterexample: a send run whose `login` raises opens the SMTP
session, returns the failure result, and never emits the close event — the
session is not closed on this exit path, refuting "closed on every exit
path". -/
theorem session_close_counterexample :
    (sendEmailHelper swAuthFail "2024-01-01T00:00:00" envCreds "a@x.com" "subj" "text"
        none none false "gmail").1.success = false
    ∧ (sendEmailHelper swAuthFail "2024-01-01T00:00:00" envCreds "a@x.com" "subj" "text"
        none none false "gmail").2 = [Ev.smtpOpen "smtp.gmail.com" 587]
    ∧ Ev.smtpQuit ∉ (sendEmailHelper swAuthFail "2024-01-01T00:00:00" envCreds "a@x.com" "subj"
        "text" none none false "gmail").2 := by
  refine ⟨by decide, by decide, by decide⟩

/-- C3 amended: for the send and read operations the session-close event is
in the trace exactly on the successful exit path; on every failure path —
including failures after the session was opened — the session is not
closed. -/
theorem session_close_amended (sw : SmtpWorld) (iw : ImapWorld) (env : Env)
    (now to_email subject body folder provider : String)
    (cc_email bcc_email : Option String) (is_html unread_only : Bool) (limit : Nat) :
    ((sendEmailHelper sw now env to_email subject body cc_email bcc_email is_html provider).1.success = true
      ↔ Ev.smtpQuit ∈ (sendEmailHelper sw now env to_email subject body cc_email bcc_email is_html provider).2)
    ∧ ((readEmailsHelper iw env folder limit unread_only provider).1.success = true
      ↔ Ev.imapLogout ∈ (readEmailsHelper iw env folder limit unread_only provider).2) := by
  constructor
  · obtain ⟨c1, c2, c3, c4⟩ := sw
    cases hv : (EmailConfig.ofEnv env provider).validate_credentials <;>
      cases c1 <;> cases c2 <;> cases c3 <;> cases c4 <;>
        simp [sendEmailHelper, hv, sendExceptHandlers_success]
  · obtain ⟨c1, c2, c3, so, f⟩ := iw
    cases hv : (EmailConfig.ofEnv env provider).validate_credentials
    · simp [readEmailsHelper, hv]
    · cases c1 with
      | some e => simp [readEmailsHelper, hv, readExceptHandlers_success]
      | none =>
        cases c2 with
        | some e => simp [readEmailsHelper, hv, readExceptHandlers_success]
        | none =>
          cases c3 with
          | some e => simp [readEmailsHelper, hv, readExceptHandlers_success]
          | none =>
            cases so with
            | error e => simp [readEmailsHelper, hv, readExceptHandlers_success]
            | ok pr =>
              obtain ⟨flag, ids⟩ := pr
              cases flag
              · simp [readEmailsHelper, hv]
              · cases hr : (fetchLoop ⟨none, none, none, Except.ok (true, ids), f⟩
                    (pyOr (EmailConfig.ofEnv env provider).email_address "")
                    (pySliceLastN limit ids).reverse).1 with
                | error e =>
                  simp [readEmailsHelper, hv, hr, readExceptHandlers_success,
                    fetchLoop_no_logout]
                | ok emails => simp [readEmailsHelper, hv, hr]

/-- C4: when search succeeds with identifier list `ids` (ascending, oldest
first per provider convention) and every fetch succeeds, the read operation
takes the last `limit` identifiers and iterates them in reverse: the
returned summaries correspond to `ids.reverse.take limit` — the newest
identifiers, newest first. -/
theorem newest_first_order (iw : ImapWorld) (env : Env) (ids : List Nat) (msgf : Nat → RawMsg)
    (folder provider : String) (unread_only : Bool) (limit : Nat)
    (hv : (EmailConfig.ofEnv env provider).validate_credentials = true)
    (hconn : iw.connectErr = none) (hlogin : iw.loginErr = none) (hsel : iw.selectErr = none)
    (hsearch : iw.searchOutcome = Except.ok (true, ids))
    (hfetch : ∀ i, iw.fetch i = FetchOutcome.ok (msgf i))
    (hlim : 1 ≤ limit) :
    (readEmailsHelper iw env folder limit unread_only provider).1.emails.map EmailInfo.id
      = (ids.reverse.take limit).map toString := by
  have hslice : (pySliceLastN limit ids).reverse = ids.reverse.take limit := by
    rw [pySliceLastN, if_neg (by omega)]
    rw [show ids.drop (ids.length - limit) = ids.rtake limit from rfl,
      List.rtake_eq_reverse_take_reverse, List.reverse_reverse]
  have hloop := fetchLoop_all_ok iw (pyOr (EmailConfig.ofEnv env provider).email_address "")
    msgf (ids.reverse.take limit) (fun i _ => hfetch i)
  simp [readEmailsHelper, hv, hconn, hlogin, hsel, hsearch, hslice, hloop, List.map_map]
  rfl

/-- Witness for C4: identifiers [1,2,3,4,5] with limit 3 yield summaries for
[5,4,3] in that order. -/
theorem newest_first_order_witness :
    (readEmailsHelper iwFiveMsgs envCreds "INBOX" 3 false "gmail").1.emails.map EmailInfo.id
      = ["5", "4", "3"] :=
  (newest_first_order iwFiveMsgs envCreds [1, 2, 3, 4, 5] msgFor "INBOX" "gmail" false 3
    (by decide) rfl rfl rfl rfl (fun i => rfl) (by omega)).trans (by decide)

/-- C9: every failure of the three helpers carries one of the taxonomy's
descriptive diagnostics (configuration, authentication, protocol,
transport/SMTP, unexpected), and each external-facing tool converts a
helper failure into its rendered failure string — errors are handled
locally, never propagated: the tools are total String-valued functions. -/
theorem errors_converted_locally (sw : SmtpWorld) (iw : ImapWorld) (env : Env)
    (now timestamp to_email subject body folder provider recipient note unread_str : String)
    (cc_email bcc_email : Option String) (is_html unread_only : Bool) (limit : Nat) (n : Int) :
    ((sendEmailHelper sw now env to_email subject body cc_email bcc_email is_html provider).1.success = false →
      ((sendEmailHelper sw now env to_email subject body cc_email bcc_email is_html provider).1.message
          = notConfiguredSendMsg
        ∨ (sendEmailHelper sw now env to_email subject body cc_email bcc_email is_html provider).1.message
          = "Authentication failed. Check your email credentials or use app-specific password."
        ∨ (∃ m, (sendEmailHelper sw now env to_email subject body cc_email bcc_email is_html provider).1.message
          = "SMTP error: " ++ m)
        ∨ (∃ m, (sendEmailHelper sw now env to_email subject body cc_email bcc_email is_html provider).1.message
          = "Unexpected error: " ++ m)))
    ∧ ((readEmailsHelper iw env folder limit unread_only provider).1.success = false →
      ((readEmailsHelper iw env folder limit unread_only provider).1.message
          = "Email credentials not configured."
        ∨ (readEmailsHelper iw env folder limit unread_only provider).1.message
          = "Failed to search emails"
        ∨ (∃ m, (readEmailsHelper iw env folder limit unread_only provider).1.message
          = "IMAP error: " ++ m)
        ∨ (∃ m, (readEmailsHelper iw env folder limit unread_only provider).1.message
          = "Unexpected error: " ++ m)))
    ∧ ((testEmailConnectionHelper sw iw env provider).1.success = false →
      ((testEmailConnectionHelper sw iw env provider).1.message
          = "Email credentials not configured"
        ∨ (∃ m, (testEmailConnectionHelper sw iw env provider).1.message
          = "Connection failed: " ++ m)))
    ∧ ((sendEmailHelper sw now env to_email subject body cc_email none false "gmail").1.success = false →
      send_email sw now env to_email subject body cc_email
        = "❌ Failed to send email: "
          ++ (sendEmailHelper sw now env to_email subject body cc_email none false "gmail").1.message)
    ∧ ((readEmailsHelper iw env "INBOX" (pyClampLimit n).toNat (pyLower unread_str == "true") "gmail").1.success = false →
      read_recent_emails iw env n unread_str
        = "❌ Failed to read emails: "
          ++ (readEmailsHelper iw env "INBOX" (pyClampLimit n).toNat (pyLower unread_str == "true") "gmail").1.message)
    ∧ ((testEmailConnectionHelper sw iw env "gmail").1.success = false →
      test_email_connection sw iw env
        = "❌ Email Connection Failed: "
          ++ (testEmailConnectionHelper sw iw env "gmail").1.message)
    ∧ ((sendEmailHelper sw now env recipient ("Notification - " ++ timestamp)
          ("🔔 Notification from WatsonX Agent\n\n📅 Time: " ++ timestamp ++ "\n💬 Message: " ++ note
            ++ "\n\n---\nThis is an automated notification sent by WatsonX Orchestrate Agent.")
          none none false "gmail").1.success = false →
      send_quick_notification sw now timestamp env recipient note
        = "❌ Failed to send notification: "
          ++ (sendEmailHelper sw now env recipient ("Notification - " ++ timestamp)
            ("🔔 Notification from WatsonX Agent\n\n📅 Time: " ++ timestamp ++ "\n💬 Message: " ++ note
              ++ "\n\n---\nThis is an automated notification sent by WatsonX Orchestrate Agent.")
            none none false "gmail").1.message) := by
  refine ⟨?_, ?_, ?_, ?_, ?_, ?_, ?_⟩
  · intro h
    rcases sendEmailHelper_failure_form sw now env to_email subject body cc_email bcc_email
        is_html provider h with h1 | ⟨e, h1⟩
    · exact Or.inl (by rw [h1])
    · rw [h1]
      rcases sendExceptHandlers_message e with h2 | h2 | h2
      · exact Or.inr (Or.inl h2)
      · exact Or.inr (Or.inr (Or.inl h2))
      · exact Or.inr (Or.inr (Or.inr h2))
  · intro h
    rcases readEmailsHelper_failure_form iw env folder limit unread_only provider h
      with h1 | h1 | ⟨e, h1⟩
    · exact Or.inl (by rw [h1])
    · exact Or.inr (Or.inl (by rw [h1]))
    · rw [h1]
      rcases readExceptHandlers_message e with h2 | h2
      · exact Or.inr (Or.inr (Or.inl h2))
      · exact Or.inr (Or.inr (Or.inr h2))
  · intro h
    rcases testEmailConnectionHelper_failure_form sw iw env provider h with h1 | ⟨e, h1⟩
    · exact Or.inl (by rw [h1])
    · exact Or.inr ⟨e.str, by rw [h1]; rfl⟩
  · intro h; simp [send_email, h]
  · intro h; simp [read_recent_emails, h]
  · intro h; simp [test_email_connection, h]
  · intro h; simp [send_quick_notification, h]

/-- Witness for C9: an authentication failure during send is reported as
one of the taxonomy diagnostics. -/
theorem errors_converted_locally_witness :
    (sendEmailHelper swAuthFail "2024-01-01T00:00:00" envCreds "a@x.com" "subj" "text"
        none none false "gmail").1.message = notConfiguredSendMsg
    ∨ (sendEmailHelper swAuthFail "2024-01-01T00:00:00" envCreds "a@x.com" "subj" "text"
        none none false "gmail").1.message
      = "Authentication failed. Check your email credentials or use app-specific password."
    ∨ (∃ m, (sendEmailHelper swAuthFail "2024-01-01T00:00:00" envCreds "a@x.com" "subj" "text"
        none none false "gmail").1.message = "SMTP error: " ++ m)
    ∨ (∃ m, (sendEmailHelper swAuthFail "2024-01-01T00:00:00" envCreds "a@x.com" "subj" "text"
        none none false "gmail").1.message = "Unexpected error: " ++ m) :=
  (errors_converted_locally swAuthFail iwAllOk envCreds "2024-01-01T00:00:00" "ts" "a@x.com"
    "subj" "text" "INBOX" "gmail" "r@x.com" "note" "false" none none false false 5 5).1
    (by decide)

/-- C10: every failure result of the read operation carries an empty email
list — in particular, summaries already collected when a mid-loop
unexpected exception aborts the fetch/parse loop are never returned. -/
theorem read_failure_empty_list (iw : ImapWorld) (env : Env) (folder : String)
    (limit : Nat) (unread_only : Bool) (provider : String)
    (h : (readEmailsHelper iw env folder limit unread_only provider).1.success = false) :
    (readEmailsHelper iw env folder limit unread_only provider).1.emails = [] := by
  rcases readEmailsHelper_failure_form iw env folder limit unread_only provider h
    with h1 | h1 | ⟨e, h1⟩
  · rw [h1]
  · rw [h1]
  · rw [h1]; exact readExceptHandlers_emails e

/-- Witness for C10: a run that builds one summary (identifier 2) and then
hits an unexpected exception (identifier 1) fails with an empty email list. -/
theorem read_failure_empty_list_witness :
    (readEmailsHelper iwMidLoopFail envCreds "INBOX" 5 false "gmail").1.success = false
    ∧ (readEmailsHelper iwMidLoopFail envCreds "INBOX" 5 false "gmail").1.emails = [] :=
  ⟨by decide, read_failure_empty_list iwMidLoopFail envCreds "INBOX" 5 false "gmail" (by decide)⟩
